import Mathlib

/-
Verification of the PRN (Permanent Resource Name) validator and the styled
diagnostic reporter of the morel CLI (src/utils/mod.rs), as a shallow
embedding in Lean.  Rust strings are modelled as lists of characters; the
colon split, the UUID syntax check of the uuid crate, the PRN type registry
and the segment-count dispatch of PRNValueParser::parse_ref are translated
directly from the source.  Fallible steps return Except, and the internal
iterator unwraps of the source are modelled separately (parse_refO) with
Option, none standing for a panic.
-/

/-! ## PRN type registry (src/utils/mod.rs, enum PRNType and TryFrom<String>) -/

inductive PRNType where
  | APIKey
  | Artifact
  | ArtifactVersion
  | AuditLog
  | Binary
  | BinaryPart
  | BinarySignature
  | Bundle
  | BundleOverride
  | CACertificate
  | Cohort
  | Deployment
  | Device
  | DeviceCertificate
  | Event
  | Firmware
  | OrgUser
  | Organization
  | Product
  | Release
  | ReleaseClaim
  | SigningKey
  | Tunnel
  | User
  | WebConsoleShell
  | Webhook
  | UserToken
deriving DecidableEq

/-- Embeds the impl TryFrom<String> for PRNType registry: maps a canonical
snake_case tag string to its resource kind, none for an unknown tag. -/
def PRNType.tryFrom (value : String) : Option PRNType :=
  match value with
  | "api_key" => some .APIKey
  | "artifact" => some .Artifact
  | "artifact_version" => some .ArtifactVersion
  | "audit_log" => some .AuditLog
  | "binary" => some .Binary
  | "binary_part" => some .BinaryPart
  | "binary_signature" => some .BinarySignature
  | "bundle" => some .Bundle
  | "bundle_override" => some .BundleOverride
  | "ca_certificate" => some .CACertificate
  | "cohort" => some .Cohort
  | "deployment" => some .Deployment
  | "device" => some .Device
  | "device_certificate" => some .DeviceCertificate
  | "event" => some .Event
  | "firmware" => some .Firmware
  | "org_user" => some .OrgUser
  | "organization" => some .Organization
  | "product" => some .Product
  | "release" => some .Release
  | "release_claim" => some .ReleaseClaim
  | "signing_key" => some .SigningKey
  | "tunnel" => some .Tunnel
  | "user" => some .User
  | "web_console_shell" => some .WebConsoleShell
  | "webhook" => some .Webhook
  | "user_token" => some .UserToken
  | _ => none

/-- Modelled from the spec: the registry direction kindToTag (the total
function from a resource kind to its canonical lowercase snake_case tag) is
described in the spec but has no counterpart under src/; it is modelled as
the inverse of the match arms of the TryFrom<String> impl. -/
def kindToTag : PRNType → String
  | .APIKey => "api_key"
  | .Artifact => "artifact"
  | .ArtifactVersion => "artifact_version"
  | .AuditLog => "audit_log"
  | .Binary => "binary"
  | .BinaryPart => "binary_part"
  | .BinarySignature => "binary_signature"
  | .Bundle => "bundle"
  | .BundleOverride => "bundle_override"
  | .CACertificate => "ca_certificate"
  | .Cohort => "cohort"
  | .Deployment => "deployment"
  | .Device => "device"
  | .DeviceCertificate => "device_certificate"
  | .Event => "event"
  | .Firmware => "firmware"
  | .OrgUser => "org_user"
  | .Organization => "organization"
  | .Product => "product"
  | .Release => "release"
  | .ReleaseClaim => "release_claim"
  | .SigningKey => "signing_key"
  | .Tunnel => "tunnel"
  | .User => "user"
  | .WebConsoleShell => "web_console_shell"
  | .Webhook => "webhook"
  | .UserToken => "user_token"

/-! ## UUID syntax (uuid crate, Uuid::try_parse / try_parse_ascii)

The source calls uuid::Uuid::try_parse on UUID-bearing segments.  That
parser accepts exactly four textual shapes, dispatched on length (36
hyphenated, 45 urn-prefixed, 38 braced, 32 simple); the length dispatch is
written here as a disjunction of the four shape predicates, which is
equivalent because each shape fixes a distinct length. -/

def isHexDigit (c : Char) : Bool :=
  (decide ('0' ≤ c) && decide (c ≤ '9')) ||
  (decide ('a' ≤ c) && decide (c ≤ 'f')) ||
  (decide ('A' ≤ c) && decide (c ≤ 'F'))

/-- Position check of the hyphenated form: hyphens at indices 8, 13, 18, 23
and hex digits everywhere else. -/
def uuidCharOk (i : Nat) (c : Char) : Bool :=
  if i == 8 || i == 13 || i == 18 || i == 23 then c == '-'
  else isHexDigit c

/-- The canonical hyphenated UUID grammar: 36 characters, 32 hex digits and
4 hyphens in the canonical positions.  This is both the grammar named by the
spec and the length-36 branch of Uuid::try_parse. -/
def hyphenatedOk (s : List Char) : Bool :=
  s.length == 36 && (List.range 36).all fun i => uuidCharOk i (s.getD i ' ')

/-- The simple form accepted by Uuid::try_parse: 32 hex digits, no hyphens. -/
def simpleOk (s : List Char) : Bool :=
  s.length == 32 && s.all isHexDigit

/-- The urn-prefixed form accepted by Uuid::try_parse. -/
def urnOk (s : List Char) : Bool :=
  s.length == 45 && s.take 9 == ("urn:uuid:".toList) && hyphenatedOk (s.drop 9)

/-- The Microsoft braced form accepted by Uuid::try_parse. -/
def bracedOk (s : List Char) : Bool :=
  s.length == 38 && s.headD ' ' == Char.ofNat 123 &&
    s.getLastD ' ' == Char.ofNat 125 &&
    hyphenatedOk ((s.drop 1).dropLast)

/-- Uuid::try_parse succeeds exactly on one of the four shapes. -/
def uuidOk (s : List Char) : Bool :=
  hyphenatedOk s || urnOk s || bracedOk s || simpleOk s

/-! ## Colon split (value.split on the colon character) -/

/-- Rust str::split on a single character: the list of segments between
colons.  Like the Rust iterator it yields one segment even for the empty
string, and the segment count is always the colon count plus one. -/
def splitColon : List Char → List (List Char)
  | [] => [[]]
  | c :: rest =>
    match splitColon rest with
    | [] => [[]]
    | s :: ss => if c = ':' then [] :: s :: ss else (c :: s) :: ss

/-- A list of characters containing no colon; such a list is exactly one
segment of the colon split. -/
def noColon (s : List Char) : Bool := s.all fun c => c != ':'

/-- Option.is_some_and of the source: false on none, the predicate on some. -/
def segNe (o : Option (List Char)) (t : List Char) : Bool :=
  match o with
  | none => false
  | some x => x != t

/-! ## The validator (PRNValueParser::parse_ref)

The clap error produced by the helper prn_error carries only a message
string; the embedding instead records the exact return site of parse_ref as
an inductive cause, which refines the messages (the arity, prn-literal and
version sites all share the message Invalid PRN in the source). -/

inductive PrnError where
  /-- Segment count outside 3..=5 (message Invalid PRN). -/
  | arity
  /-- First segment is not the literal prn (message Invalid PRN). -/
  | prnLiteral
  /-- Second segment is not the literal 1 (message Invalid PRN). -/
  | version
  /-- Three segments but the expected kind is not Organization. -/
  | kindDisallowed3
  /-- Three segments and the organization UUID fails Uuid::try_parse. -/
  | orgUuid3
  /-- Four segments and the expected-kind check fails. -/
  | kindDisallowed4
  /-- Four segments and the embedded tag is not a registered kind. -/
  | unknownTag4
  /-- Four segments and the parsed tag fails the user-or-token check. -/
  | tagNotUserOrToken4
  /-- Five segments and the organization UUID fails Uuid::try_parse. -/
  | orgUuid5
  /-- Five segments and the embedded tag is not a registered kind. -/
  | unknownTag5
  /-- Five segments and the parsed tag differs from the expected kind. -/
  | typeMismatch5 (expected : PRNType)
  /-- Five segments and the resource UUID fails Uuid::try_parse. -/
  | resUuid5
deriving DecidableEq

/-- Body of PRNValueParser::parse_ref after the colon split: the arity
guard, the prn and 1 literal checks, then the dispatch on the segment
count.  The final catch-all arm mirrors the unreachable default arm of the
source match, which produces the same Invalid PRN error as the arity
guard. -/
def parse_refSegs (expected : PRNType) (segs : List (List Char)) (value : List Char) :
    Except PrnError (List Char) :=
  if ¬ (3 ≤ segs.length ∧ segs.length ≤ 5) then .error .arity
  else if segNe (segs.get? 0) ("prn".toList) then .error .prnLiteral
  else if segNe (segs.get? 1) ("1".toList) then .error .version
  else
    match segs with
    | [_, _, c] =>
      -- organization prn only
      if expected ≠ PRNType.Organization then .error .kindDisallowed3
      else if ¬ uuidOk c then .error .orgUuid3
      else .ok value
    | [_, _, c, _] =>
      -- user or user token; note the source tests a disjunction of
      -- inequalities here (and again on the parsed tag), and never checks
      -- the fourth segment
      if expected ≠ PRNType.User ∨ expected ≠ PRNType.UserToken then .error .kindDisallowed4
      else
        match PRNType.tryFrom (String.mk c) with
        | none => .error .unknownTag4
        | some t =>
          if t ≠ PRNType.User ∨ t ≠ PRNType.UserToken then .error .tagNotUserOrToken4
          else .ok value
    | [_, _, c, d, e] =>
      if ¬ uuidOk c then .error .orgUuid5
      else
        match PRNType.tryFrom (String.mk d) with
        | none => .error .unknownTag5
        | some t =>
          if expected ≠ t then .error (.typeMismatch5 expected)
          else if ¬ uuidOk e then .error .resUuid5
          else .ok value
    | _ => .error .arity

/-- PRNValueParser::parse_ref: split the candidate on colons, validate, and
on success return the original candidate unchanged. -/
def parse_ref (expected : PRNType) (value : List Char) : Except PrnError (List Char) :=
  parse_refSegs expected (splitColon value) value

/-- The same validator body with every internal unwrap of the source made
explicit: the three split iterator unwraps and the unwrap of the parsed tag
after its is_err check are Option binds, so a none result would be a panic
of the source.  The totality theorem shows none is unreachable. -/
def parse_refOSegs (expected : PRNType) (segs : List (List Char)) (value : List Char) :
    Option (Except PrnError (List Char)) :=
  if ¬ (3 ≤ segs.length ∧ segs.length ≤ 5) then some (.error .arity)
  else if segNe (segs.get? 0) ("prn".toList) then some (.error .prnLiteral)
  else if segNe (segs.get? 1) ("1".toList) then some (.error .version)
  else
    match segs.length with
    | 3 =>
      if expected ≠ PRNType.Organization then some (.error .kindDisallowed3)
      else (segs.get? 2).bind fun c =>
        if ¬ uuidOk c then some (.error .orgUuid3) else some (.ok value)
    | 4 =>
      if expected ≠ PRNType.User ∨ expected ≠ PRNType.UserToken then
        some (.error .kindDisallowed4)
      else (segs.get? 2).bind fun c =>
        if (PRNType.tryFrom (String.mk c)).isNone then some (.error .unknownTag4)
        else (PRNType.tryFrom (String.mk c)).bind fun t =>
          if t ≠ PRNType.User ∨ t ≠ PRNType.UserToken then some (.error .tagNotUserOrToken4)
          else some (.ok value)
    | 5 =>
      (segs.get? 2).bind fun c =>
        if ¬ uuidOk c then some (.error .orgUuid5)
        else (segs.get? 3).bind fun d =>
          if (PRNType.tryFrom (String.mk d)).isNone then some (.error .unknownTag5)
          else (PRNType.tryFrom (String.mk d)).bind fun t =>
            if expected ≠ t then some (.error (.typeMismatch5 expected))
            else (segs.get? 4).bind fun e =>
              if ¬ uuidOk e then some (.error .resUuid5) else some (.ok value)
    | _ => some (.error .arity)

/-- PRNValueParser::parse_ref with panics modelled as none. -/
def parse_refO (expected : PRNType) (value : List Char) :
    Option (Except PrnError (List Char)) :=
  parse_refOSegs expected (splitColon value) value

/-! ## Reporter (StyledStr) -/

inductive Style where
  | Success
  | Warning
  | Error
deriving DecidableEq

structure StyledStr where
  messages : List (Option Style × String)
deriving DecidableEq

def StyledStr.new : StyledStr := ⟨[]⟩

/-- StyledStr::push_str: append the styled message, silently dropping an
empty message. -/
def StyledStr.push_str (self : StyledStr) (style : Option Style) (msg : String) : StyledStr :=
  if !msg.isEmpty then ⟨self.messages ++ [(style, msg)]⟩ else self

/-- The text StyledStr::print_err writes to the standard error stream: the
accumulated messages in order followed by a carriage return and newline
(color escapes aside). -/
def StyledStr.render (self : StyledStr) : String :=
  (self.messages.foldl (fun acc m => acc ++ m.2) "") ++ "\r\n"

/-- Outcome of a terminal reporter call: the text written to standard error
and the process exit code. -/
structure ProcessExit where
  stderrText : String
  exitCode : Nat
deriving DecidableEq

/-- StyledStr::print_data_err: print the report, then exit with the fixed
DATAERR code 65. -/
def StyledStr.print_data_err (self : StyledStr) : ProcessExit :=
  ⟨self.render, 65⟩

/-- StyledStr::print_success: print the report, then exit with code 0. -/
def StyledStr.print_success (self : StyledStr) : ProcessExit :=
  ⟨self.render, 0⟩

/-! ## Lemmas about the colon split -/

lemma splitColon_ne_nil (s : List Char) : splitColon s ≠ [] := by
  cases s with
  | nil => simp [splitColon]
  | cons c rest =>
    simp only [splitColon]
    cases splitColon rest with
    | nil => simp
    | cons a as => by_cases hc : c = ':' <;> simp [hc]

lemma splitColon_colon_cons (t : List Char) : splitColon (':' :: t) = [] :: splitColon t := by
  simp only [splitColon]
  cases h : splitColon t with
  | nil => exact absurd h (splitColon_ne_nil t)
  | cons a as => simp

lemma splitColon_cons_ne (c : Char) (hc : c ≠ ':') (t : List Char) (a : List Char)
    (as : List (List Char)) (h : splitColon t = a :: as) :
    splitColon (c :: t) = (c :: a) :: as := by
  simp only [splitColon, h]
  rw [if_neg hc]

lemma splitColon_noColon (s : List Char) (h : noColon s = true) : splitColon s = [s] := by
  induction s with
  | nil => rfl
  | cons c t ih =>
    simp only [noColon, List.all_cons, Bool.and_eq_true, bne_iff_ne] at h
    exact splitColon_cons_ne c h.1 t t []
      (ih (by simp only [noColon]; exact h.2))

lemma splitColon_append_colon (xs : List Char) (h : noColon xs = true) (ys : List Char) :
    splitColon (xs ++ ':' :: ys) = xs :: splitColon ys := by
  induction xs with
  | nil => simpa using splitColon_colon_cons ys
  | cons c t ih =>
    simp only [noColon, List.all_cons, Bool.and_eq_true, bne_iff_ne] at h
    have h2 : splitColon (t ++ ':' :: ys) = t :: splitColon ys :=
      ih (by simp only [noColon]; exact h.2)
    simpa using splitColon_cons_ne c h.1 (t ++ ':' :: ys) t (splitColon ys) h2

/-- Segment shape of a three-segment candidate built from a colon-free
third segment. -/
lemma segs_org3 (u : List Char) (h : noColon u = true) :
    splitColon ("prn:1:".toList ++ u) = ["prn".toList, "1".toList, u] := by
  have e : "prn:1:".toList ++ u = "prn".toList ++ ':' :: ("1".toList ++ ':' :: u) := by rfl
  rw [e, splitColon_append_colon _ (by decide), splitColon_append_colon _ (by decide),
    splitColon_noColon u h]

/-- Segment shape of a five-segment candidate with the organization tag. -/
lemma segs_org5 (u1 u2 : List Char) (h1 : noColon u1 = true) (h2 : noColon u2 = true) :
    splitColon ("prn:1:".toList ++ u1 ++ ":organization:".toList ++ u2)
      = ["prn".toList, "1".toList, u1, "organization".toList, u2] := by
  have e : "prn:1:".toList ++ u1 ++ ":organization:".toList ++ u2
      = "prn".toList ++ ':' ::
          ("1".toList ++ ':' :: (u1 ++ ':' :: ("organization".toList ++ ':' :: u2))) := by
    simp only [List.append_assoc]
    rfl
  rw [e, splitColon_append_colon _ (by decide), splitColon_append_colon _ (by decide),
    splitColon_append_colon _ h1, splitColon_append_colon _ (by decide),
    splitColon_noColon u2 h2]

/-- Segment shape of a five-segment candidate with version segment 2 and
the device tag. -/
lemma segs_dev5 (u1 u2 : List Char) (h1 : noColon u1 = true) (h2 : noColon u2 = true) :
    splitColon ("prn:2:".toList ++ u1 ++ ":device:".toList ++ u2)
      = ["prn".toList, "2".toList, u1, "device".toList, u2] := by
  have e : "prn:2:".toList ++ u1 ++ ":device:".toList ++ u2
      = "prn".toList ++ ':' ::
          ("2".toList ++ ':' :: (u1 ++ ':' :: ("device".toList ++ ':' :: u2))) := by
    simp only [List.append_assoc]
    rfl
  rw [e, splitColon_append_colon _ (by decide), splitColon_append_colon _ (by decide),
    splitColon_append_colon _ h1, splitColon_append_colon _ (by decide),
    splitColon_noColon u2 h2]

/-! ## Lemmas about the UUID grammar -/

lemma hyphenated_uuidOk {s : List Char} (h : hyphenatedOk s = true) : uuidOk s = true := by
  simp [uuidOk, h]

lemma hex_ne_colon {c : Char} (h : isHexDigit c = true) : c ≠ ':' := by
  rintro rfl
  exact absurd h (by decide)

lemma hyphenated_noColon {s : List Char} (h : hyphenatedOk s = true) : noColon s = true := by
  simp only [hyphenatedOk, Bool.and_eq_true, beq_iff_eq] at h
  obtain ⟨hlen, hall⟩ := h
  rw [List.all_eq_true] at hall
  rw [noColon, List.all_eq_true]
  intro c hc
  obtain ⟨n, hn⟩ := List.mem_iff_get.mp hc
  have hlt : n.1 < 36 := hlen ▸ n.2
  have hck := hall n.1 (List.mem_range.mpr hlt)
  rw [List.getD_eq_get?, List.get?_eq_get n.2, Option.getD_some, hn] at hck
  rw [bne_iff_ne]
  unfold uuidCharOk at hck
  split at hck
  · have : c = '-' := by simpa using hck
    subst this
    decide
  · exact hex_ne_colon hck

/-! ## Evaluation lemmas for the validator -/

lemma parse_refSegs_org3_ok (u value : List Char) (hu : uuidOk u = true) :
    parse_refSegs PRNType.Organization ["prn".toList, "1".toList, u] value = .ok value := by
  simp [parse_refSegs, segNe, hu]

lemma parse_refSegs_org3_err (u value : List Char) (hu : uuidOk u = false) :
    parse_refSegs PRNType.Organization ["prn".toList, "1".toList, u] value
      = .error .orgUuid3 := by
  simp [parse_refSegs, segNe, hu]

lemma parse_refSegs_five_ok (expected t : PRNType) (u1 tag u2 value : List Char)
    (h1 : uuidOk u1 = true) (htag : PRNType.tryFrom (String.mk tag) = some t)
    (hte : expected = t) (h2 : uuidOk u2 = true) :
    parse_refSegs expected ["prn".toList, "1".toList, u1, tag, u2] value = .ok value := by
  subst hte
  simp [parse_refSegs, segNe, h1, h2, htag]

lemma tryFrom_org_list :
    PRNType.tryFrom (String.mk ("organization".toList)) = some PRNType.Organization := rfl

lemma get?_some_of_lt {α : Type} (l : List α) (i : Nat) (h : i < l.length) :
    ∃ x, l.get? i = some x := ⟨l.get ⟨i, h⟩, List.get?_eq_get h⟩

/-- Every branch of the unwrap-explicit validator body yields some result:
whenever an unwrap is reached, the arity guard has already bounded the
segment count, so the unwrapped iterator elements exist. -/
lemma parse_refOSegs_isSome (k : PRNType) (segs : List (List Char)) (value : List Char) :
    (parse_refOSegs k segs value).isSome = true := by
  unfold parse_refOSegs
  by_cases h : 3 ≤ segs.length ∧ segs.length ≤ 5
  case neg => simp [h]
  rw [if_neg (not_not_intro h)]
  split
  · simp
  split
  · simp
  obtain ⟨x2, hx2⟩ := get?_some_of_lt segs 2 (by omega)
  split
  · split
    · simp
    · rw [hx2]; simp only [Option.some_bind]; split <;> simp
  · split
    · simp
    · rw [hx2]
      simp only [Option.some_bind]
      split
      · simp
      · cases htf : PRNType.tryFrom (String.mk x2) with
        | none => simp_all
        | some t => simp only [Option.some_bind]; split <;> simp
  · rename_i h5
    obtain ⟨x3, hx3⟩ := get?_some_of_lt segs 3 (by omega)
    obtain ⟨x4, hx4⟩ := get?_some_of_lt segs 4 (by omega)
    rw [hx2]
    simp only [Option.some_bind]
    split
    · simp
    · rw [hx3]
      simp only [Option.some_bind]
      split
      · simp
      · cases htf : PRNType.tryFrom (String.mk x3) with
        | none => simp_all
        | some t =>
          simp only [Option.some_bind]
          split
          · simp
          · rw [hx4]; simp only [Option.some_bind]; split <;> simp
  · simp

/-- Round trip through the registry: the tag of a kind parses back to the
same kind. -/
lemma registry_round_trip : ∀ k : PRNType, PRNType.tryFrom (kindToTag k) = some k := by
  intro k
  cases k <;> rfl

/-! ## Claims -/

/-- C1: the claim states that four-segment user and user token PRNs are
accepted when the expected and embedded kinds agree and rejected with a
type mismatch otherwise.  The code instead rejects every four-segment
candidate at the expected-kind check, because the source condition is a
disjunction of two inequalities against two distinct kinds and therefore
always true; all three candidates of the claim produce the same rejection,
the tag segment is never even read. -/
theorem C1_four_segment_always_rejected :
    parse_ref PRNType.User ("prn:1:user:aaaaaaaa-aaaa-aaaa-aaaa-aaaaaaaaaaaa".toList)
      = .error .kindDisallowed4
    ∧ parse_ref PRNType.UserToken
        ("prn:1:user_token:aaaaaaaa-aaaa-aaaa-aaaa-aaaaaaaaaaaa".toList)
      = .error .kindDisallowed4
    ∧ parse_ref PRNType.User ("prn:1:user_token:aaaaaaaa-aaaa-aaaa-aaaa-aaaaaaaaaaaa".toList)
      = .error .kindDisallowed4 := ⟨rfl, rfl, rfl⟩

/-- C2 counterexample: the claim states that a five-segment organization
PRN is rejected; the code accepts it, returning the input unchanged. -/
theorem C2_counterexample :
    parse_ref PRNType.Organization
      ("prn:1:11111111-1111-1111-1111-111111111111:organization:22222222-2222-2222-2222-222222222222".toList)
    = .ok ("prn:1:11111111-1111-1111-1111-111111111111:organization:22222222-2222-2222-2222-222222222222".toList) := rfl

/-- C2 amended: for every pair of syntactically valid UUIDs, validating the
five-segment organization-tagged candidate against expected kind
Organization succeeds, because the five-segment branch applies the same
tag-equality rule to every expected kind and restricts none by arity. -/
theorem C2_org_five_segment_accepted (u1 u2 : List Char)
    (h1 : hyphenatedOk u1 = true) (h2 : hyphenatedOk u2 = true) :
    parse_ref PRNType.Organization ("prn:1:".toList ++ u1 ++ ":organization:".toList ++ u2)
      = .ok ("prn:1:".toList ++ u1 ++ ":organization:".toList ++ u2) := by
  unfold parse_ref
  rw [segs_org5 u1 u2 (hyphenated_noColon h1) (hyphenated_noColon h2)]
  exact parse_refSegs_five_ok PRNType.Organization PRNType.Organization u1 ("organization".toList)
    u2 _ (hyphenated_uuidOk h1) tryFrom_org_list rfl (hyphenated_uuidOk h2)

/-- C2 witness: the amended claim at concrete UUIDs. -/
theorem C2_witness :
    parse_ref PRNType.Organization
      ("prn:1:".toList ++ "aaaaaaaa-aaaa-aaaa-aaaa-aaaaaaaaaaaa".toList
        ++ ":organization:".toList ++ "bbbbbbbb-bbbb-bbbb-bbbb-bbbbbbbbbbbb".toList)
    = .ok ("prn:1:".toList ++ "aaaaaaaa-aaaa-aaaa-aaaa-aaaaaaaaaaaa".toList
        ++ ":organization:".toList ++ "bbbbbbbb-bbbb-bbbb-bbbb-bbbbbbbbbbbb".toList) :=
  C2_org_five_segment_accepted _ _ (by decide) (by decide)

/-- C3 counterexample: the claim states that a 32-hex-digit segment with no
hyphens is rejected as an invalid UUID; the code accepts it, because
Uuid::try_parse also accepts the simple UUID form. -/
theorem C3_counterexample :
    parse_ref PRNType.Organization ("prn:1:aaaaaaaaaaaaaaaaaaaaaaaaaaaaaaaa".toList)
      = .ok ("prn:1:aaaaaaaaaaaaaaaaaaaaaaaaaaaaaaaa".toList) := rfl

/-- C3 amended: a UUID-bearing segment is accepted exactly when the uuid
crate grammar accepts it.  For a colon-free segment of an organization
candidate, acceptance is equivalent to uuidOk; the canonical hyphenated
grammar is contained in uuidOk with version and variant bits unchecked;
and conversely every accepted colon-free segment is canonical hyphenated,
simple, or braced (the urn form needs colons, which a segment cannot
contain). -/
theorem C3_uuid_crate_grammar :
    (∀ u : List Char, noColon u = true →
      (parse_ref PRNType.Organization ("prn:1:".toList ++ u)
          = .ok ("prn:1:".toList ++ u)
        ↔ uuidOk u = true))
    ∧ (∀ u : List Char, hyphenatedOk u = true → uuidOk u = true)
    ∧ (∀ u : List Char, uuidOk u = true → noColon u = true →
        hyphenatedOk u = true ∨ simpleOk u = true ∨ bracedOk u = true) := by
  refine ⟨?_, fun u hu => hyphenated_uuidOk hu, ?_⟩
  · intro u hn
    constructor
    · intro hok
      cases h : uuidOk u with
      | true => rfl
      | false =>
        unfold parse_ref at hok
        rw [segs_org3 u hn, parse_refSegs_org3_err u _ h] at hok
        cases hok
    · intro hu
      unfold parse_ref
      rw [segs_org3 u hn]
      exact parse_refSegs_org3_ok _ _ hu
  · intro u hu hnc
    rw [uuidOk, Bool.or_eq_true, Bool.or_eq_true, Bool.or_eq_true] at hu
    rcases hu with ((hh | hurn) | hb) | hs
    · exact Or.inl hh
    · exfalso
      simp only [urnOk, Bool.and_eq_true, beq_iff_eq] at hurn
      have hmem : ':' ∈ u := List.take_subset 9 u (by rw [hurn.1.2]; decide)
      rw [noColon, List.all_eq_true] at hnc
      have := hnc ':' hmem
      simp at this
    · exact Or.inr (Or.inr hb)
    · exact Or.inr (Or.inl hs)

/-- C3 witness: the amended claim at a concrete simple-form segment. -/
theorem C3_witness :
    parse_ref PRNType.Organization ("prn:1:".toList ++ "bbbbbbbbbbbbbbbbbbbbbbbbbbbbbbbb".toList)
      = .ok ("prn:1:".toList ++ "bbbbbbbbbbbbbbbbbbbbbbbbbbbbbbbb".toList) :=
  (C3_uuid_crate_grammar.1 ("bbbbbbbbbbbbbbbbbbbbbbbbbbbbbbbb".toList) (by decide)).mpr
    (by decide)

/-- C4: a three-segment organization candidate with a syntactically valid
UUID validates successfully and the validator returns the input candidate
unchanged; in general every successful validation returns exactly the
candidate it was given. -/
theorem C4_success_returns_input :
    (∀ u : List Char, hyphenatedOk u = true →
      parse_ref PRNType.Organization ("prn:1:".toList ++ u)
        = .ok ("prn:1:".toList ++ u))
    ∧ ∀ (k : PRNType) (v s : List Char), parse_ref k v = .ok s → s = v := by
  constructor
  · intro u hu
    unfold parse_ref
    rw [segs_org3 u (hyphenated_noColon hu)]
    exact parse_refSegs_org3_ok _ _ (hyphenated_uuidOk hu)
  · intro k v s h
    unfold parse_ref parse_refSegs at h
    repeat' split at h
    all_goals (cases h <;> rfl)

/-- C4 witness: success and identity of the output at a concrete UUID. -/
theorem C4_witness :
    parse_ref PRNType.Organization
      ("prn:1:".toList ++ "cccccccc-cccc-cccc-cccc-cccccccccccc".toList)
    = .ok ("prn:1:".toList ++ "cccccccc-cccc-cccc-cccc-cccccccccccc".toList) :=
  C4_success_returns_input.1 _ (by decide)

/-- C5: for every expected kind and every candidate whose colon-delimited
segment count lies outside 3..=5, validation fails with the arity error;
the statement holds for arbitrary candidate content, which is exactly the
fact that the arity check runs before any other check. -/
theorem C5_arity_checked_first (k : PRNType) (v : List Char)
    (h : ¬ (3 ≤ (splitColon v).length ∧ (splitColon v).length ≤ 5)) :
    parse_ref k v = .error .arity := by
  unfold parse_ref parse_refSegs
  rw [if_pos h]

/-- C5 witness: the two-segment and six-segment examples of the claim. -/
theorem C5_witness :
    parse_ref PRNType.Device ("prn:1".toList) = .error .arity
    ∧ parse_ref PRNType.Device ("prn:1:a:b:c:d".toList) = .error .arity :=
  ⟨C5_arity_checked_first _ _ (by decide), C5_arity_checked_first _ _ (by decide)⟩

/-- C6: the registry is a total injective bidirectional mapping; the tag of
every kind parses back to that same kind, and distinct kinds have distinct
tags. -/
theorem C6_registry_bijective :
    (∀ k : PRNType, PRNType.tryFrom (kindToTag k) = some k)
    ∧ ∀ a b : PRNType, kindToTag a = kindToTag b → a = b := by
  refine ⟨registry_round_trip, fun a b h => ?_⟩
  have h2 := congrArg PRNType.tryFrom h
  rw [registry_round_trip a, registry_round_trip b] at h2
  exact Option.some.inj h2

/-- C6 witness: the round trip and injectivity at a concrete kind. -/
theorem C6_witness :
    PRNType.tryFrom (kindToTag PRNType.Device) = some PRNType.Device
    ∧ PRNType.Device = PRNType.Device :=
  ⟨C6_registry_bijective.1 PRNType.Device,
    C6_registry_bijective.2 PRNType.Device PRNType.Device rfl⟩

/-- C7: with the arity in range, a first segment other than the prn literal
is rejected at the prn-literal site, a first segment equal to prn with a
second segment other than 1 is rejected at the later version site, and in
particular a device candidate with version segment 2 fails at the version
site. -/
theorem C7_literal_then_version :
    (∀ (k : PRNType) (v : List Char) (s0 : List Char),
        3 ≤ (splitColon v).length → (splitColon v).length ≤ 5 →
        (splitColon v).get? 0 = some s0 → s0 ≠ "prn".toList →
        parse_ref k v = .error .prnLiteral)
    ∧ (∀ (k : PRNType) (v : List Char) (s1 : List Char),
        3 ≤ (splitColon v).length → (splitColon v).length ≤ 5 →
        (splitColon v).get? 0 = some ("prn".toList) →
        (splitColon v).get? 1 = some s1 → s1 ≠ "1".toList →
        parse_ref k v = .error .version)
    ∧ ∀ u1 u2 : List Char, hyphenatedOk u1 = true → hyphenatedOk u2 = true →
        parse_ref PRNType.Device ("prn:2:".toList ++ u1 ++ ":device:".toList ++ u2)
          = .error .version := by
  refine ⟨?_, ?_, ?_⟩
  · intro k v s0 h3 h5 hget hne
    unfold parse_ref parse_refSegs
    rw [if_neg (not_not_intro ⟨h3, h5⟩), hget]
    rw [if_pos (by simp only [segNe, bne_iff_ne]; exact hne)]
  · intro k v s1 h3 h5 hget0 hget1 hne
    unfold parse_ref parse_refSegs
    rw [if_neg (not_not_intro ⟨h3, h5⟩), hget0, hget1]
    rw [if_neg (by simp [segNe])]
    rw [if_pos (by simp only [segNe, bne_iff_ne]; exact hne)]
  · intro u1 u2 h1 h2
    unfold parse_ref
    rw [segs_dev5 u1 u2 (hyphenated_noColon h1) (hyphenated_noColon h2)]
    rfl

/-- C7 witness: the version rejection at concrete UUIDs. -/
theorem C7_witness :
    parse_ref PRNType.Device
      ("prn:2:".toList ++ "dddddddd-dddd-dddd-dddd-dddddddddddd".toList
        ++ ":device:".toList ++ "eeeeeeee-eeee-eeee-eeee-eeeeeeeeeeee".toList)
    = .error .version :=
  C7_literal_then_version.2.2 _ _ (by decide) (by decide)

/-- C8: the data-error reporter writes the accumulated report to standard
error and always exits with the fixed DATAERR code 65, and the success
reporter writes the report and always exits with code 0. -/
theorem C8_reporter_exit_codes (s : StyledStr) :
    s.print_data_err = ⟨s.render, 65⟩ ∧ s.print_success = ⟨s.render, 0⟩ :=
  ⟨rfl, rfl⟩

/-- C9: for every expected kind and candidate, the validator with explicit
unwraps produces a result, never none; each unwrap is reached only after
the arity guard bounds the segment count, so the unwrapped elements
exist. -/
theorem C9_parse_ref_total (k : PRNType) (v : List Char) :
    (parse_refO k v).isSome = true :=
  parse_refOSegs_isSome k (splitColon v) v

/-- C10: pushing an empty message leaves the styled report unchanged, for
every report and every style, so empty messages never appear in the
rendered output. -/
theorem C10_empty_push_str (s : StyledStr) (style : Option Style) :
    s.push_str style "" = s ∧ (s.push_str style "").render = s.render :=
  ⟨rfl, rfl⟩
